import Mathlib

/-!
Verification of the basepak k8s utilities (`src/basepak/k8s_utils.py` and the
helpers it uses from `src/basepak/strings.py`), via a shallow embedding.

Kubectl invocations are modelled as an explicit trace of `Call` values; the
responses a run receives from the cluster are supplied as oracle structures,
so every theorem quantifying over oracles covers every possible sequence of
cluster responses.  Python strings are modelled as `String` / `List Char`
with faithful re-implementations of the string primitives the code uses
(`split`, `splitlines`, `strip`, slicing, containment).
-/

namespace Basepak

/-- Python whitespace characters recognised by `str.split()` with no argument. -/
def pyIsSpace (c : Char) : Bool :=
  c = ' ' || c = '\t' || c = '\n' || c = '\r' || c = '\x0b' || c = '\x0c'

/-- Helper for `pySplitWs`: accumulates the current token (reversed). -/
def pySplitWsAux : List Char → List Char → List (List Char)
  | [], acc => if acc.isEmpty then [] else [acc.reverse]
  | c :: cs, acc =>
    if pyIsSpace c then
      if acc.isEmpty then pySplitWsAux cs [] else acc.reverse :: pySplitWsAux cs []
    else pySplitWsAux cs (c :: acc)

/-- Python `s.split()`: split on runs of whitespace, dropping empty tokens. -/
def pySplitWs (s : List Char) : List (List Char) :=
  pySplitWsAux s []

/-- Python `s.split(sep, maxsplit=1)` for a one-character separator: the part
before the first occurrence, and the part after it when the separator occurs. -/
def splitFirstOn (sep : Char) : List Char → List Char × Option (List Char)
  | [] => ([], none)
  | c :: cs =>
    if c = sep then ([], some cs)
    else
      let r := splitFirstOn sep cs
      (c :: r.1, r.2)

/-- Python `" ".join(parts)`. -/
def joinSpace (parts : List (List Char)) : List Char :=
  (parts.intersperse [' ']).flatten

/-- Embeds `k8s_utils._parse_remote_path` (k8s_utils.py lines 64-79): parse a
remote path string into `(host, path)`; raises `ValueError` on the empty
string. -/
def parse_remote_path (s : String) : Except String (String × String) :=
  let cs := s.toList
  if cs.isEmpty then .error "Empty string received"
  else if cs.contains ':' = false then .ok (s, "")
  else
    let r := splitFirstOn ':' cs
    let pathPart := r.2.getD []
    match pySplitWs pathPart with
    | [] => .ok (⟨r.1⟩, "")
    | [_] => .ok (⟨r.1⟩, ⟨pathPart⟩)
    | t :: ts => .ok (⟨joinSpace (r.1 :: ts)⟩, ⟨t⟩)

/-- Python nonnegative slice `s[:n]`. -/
def pyTake (n : Nat) (l : List Char) : List Char :=
  l.take n

/-- Python slice `s[-n:]`; for n = 0 Python returns the whole string. -/
def pyTakeLast (n : Nat) (l : List Char) : List Char :=
  if n = 0 then l else l.drop (l.length - n)

/-- Embeds `strings.truncate` (strings.py lines 127-140), parameterised by the
MD5 hex-digest function `hashlib.md5(s.encode()).hexdigest()`, which always
yields 32 hex characters.  Every slice index is nonnegative at every call
site in the repository, so Python and Nat slicing agree. -/
def truncate (md5hex : List Char → List Char) (s : List Char) (max_len hash_len : Nat)
    (suffix : List Char) : List Char :=
  if s.length ≤ max_len then s
  else pyTake (max_len - hash_len - suffix.length) s ++ pyTake hash_len (md5hex s) ++ suffix

/-- Embeds `strings.truncate_middle` (strings.py lines 143-162) at its default
arguments max_len = 63 (the k8s job-name limit), hash_len = 4, delimiter "-"
(they are the only ones the repository uses): upto = (63+4+1)/2 = 34,
from_ = (63-4-1)/2 = 29. -/
def truncate_middle (md5hex : List Char → List Char) (s : List Char) : List Char :=
  if s.length ≤ 63 then s
  else truncate md5hex (pyTake (34 + 1) s) 34 4 ['-'] ++ pyTakeLast 29 s

/-- The suffixed candidate name for collision attempt i:
`trunc(spec["JOB_NAME"] + f"-{i}")` (k8s_utils.py line 593). -/
def jobNameCandidate (md5hex : List Char → List Char) (name : List Char) (i : Nat) : List Char :=
  truncate_middle md5hex (name ++ '-' :: (Nat.repr i).toList)

/-- Embeds the collision-resolution step of `create_oneliner_job`
(k8s_utils.py lines 592-594): when the truncated name collides with a listed
job name, take the first i in range(1, 1000) whose suffixed candidate is
free; `none` models the StopIteration that `next` raises when all 999
candidates collide. -/
def resolve_job_name_collision (md5hex : List Char → List Char) (name0 : List Char)
    (jobNames : List (List Char)) : Option (List Char) :=
  if ¬jobNames.isEmpty ∧ jobNames.contains name0 then
    match (List.range' 1 999).find? (fun i => !jobNames.contains (jobNameCandidate md5hex name0 i)) with
    | some i => some (jobNameCandidate md5hex name0 i)
    | none => none
  else some name0

/-- The base job name `spec.get("JOB_NAME") or spec["INSTANCE_NAME"] + "-" +
container_name` (k8s_utils.py line 581); the empty string stands for a
missing or falsy JOB_NAME entry. -/
def oneliner_base (jobName instanceName containerName : List Char) : List Char :=
  if jobName.isEmpty then instanceName ++ '-' :: containerName else jobName

/-- Embeds the job-name computation of `create_oneliner_job` (k8s_utils.py
lines 579-594): base-name defaulting, truncation to the 63-character limit,
then collision resolution against the currently listed job names. -/
def create_oneliner_job_name (md5hex : List Char → List Char)
    (jobName instanceName containerName : List Char)
    (jobNames : List (List Char)) : Option (List Char) :=
  resolve_job_name_collision md5hex
    (truncate_middle md5hex (oneliner_base jobName instanceName containerName)) jobNames

/-- Embeds the re-truncation done by `templates/batch_job.generate_template`
(batch_job.py line 65), through which the final job name is produced. -/
def batch_job_name (md5hex : List Char → List Char) (resolved : List Char) : List Char :=
  truncate_middle md5hex resolved

/-- A concrete stand-in for the MD5 hex digest, used by witnesses: a constant
32-hex-character output (the length is all the theorems depend on). -/
def md5const (_s : List Char) : List Char :=
  "0123456789abcdef0123456789abcdef".toList

/-- Python `s.startswith(p)`. -/
def pyStartsWith (s p : String) : Bool :=
  p.toList.isPrefixOf s.toList

/-- Helper for `pyContains`: does `needle` occur as a contiguous sublist of
`hay`? -/
def listContainsInfix (hay needle : List Char) : Bool :=
  needle.isPrefixOf hay ||
    match hay with
    | [] => false
    | _ :: t => listContainsInfix t needle

/-- Python `sub in s` (substring containment). -/
def pyContains (s sub : String) : Bool :=
  listContainsInfix s.toList sub.toList

/-- Python `s.strip()`. -/
def pyStrip (s : String) : String :=
  ⟨((s.toList.dropWhile pyIsSpace).reverse.dropWhile pyIsSpace).reverse⟩

/-- The `RESOURCE_NOT_FOUND` constant of k8s_utils.py line 36. -/
def RESOURCE_NOT_FOUND : String :=
  "Error from server (NotFound)"

/-- The forbidden-error marker checked at k8s_utils.py line 449. -/
def FORBIDDEN_MARKER : String :=
  "Error from server (Forbidden)"

/-- One external side effect issued by the embedded code.  Only cluster-state
reads and writes and the local-filesystem/sleep effects the claims talk about
are distinguished; each constructor carries enough data to identify the call. -/
inductive Call where
  | getNamespaceCall (ns : String)
  | waitNamespaceDeleteCall (ns : String)
  | createNamespaceCall (ns : String) (dryRunClient : Bool)
  | getPvcCall (name : String)
  | getPvcPhaseCall (name : String)
  | waitPvcCall (name : String) (phase : String)
  | createFromFileCall (path : String)
  | getDaemonsetStatusCall (ds : String)
  | getJobsCall (ns : String)
  | sleepCall
  | awaitJobCall (name : String)
  | waitPodReadyCall (selector : String)
  | execDuCall (remote path : String)
  | kubectlCpCall (src dest mode : String)
  | md5sumCall (path : String)
  | execTarPipeCall (srcRemote destRemote : String)
deriving Repr, DecidableEq

/-- Whether a call mutates cluster state: a `kubectl create` of any resource,
except a namespace create carrying the client-side `--dry-run=client` flag. -/
def Call.isMutating : Call → Bool
  | .createNamespaceCall _ dryRunClient => !dryRunClient
  | .createFromFileCall _ => true
  | _ => false

/-- Whether a call computes a checksum (`md5sum`, k8s_utils.py lines 22-31). -/
def Call.isChecksum : Call → Bool
  | .md5sumCall _ => true
  | _ => false

/-- The result of one `kubectl ... run(...)` subprocess: return code, stdout
and stderr. -/
structure KRes where
  rc : Int
  out : String
  err : String
deriving Repr, DecidableEq

/-- Cluster responses consumed by one entry into ensure_namespace: one `get
namespace` response and, when the creation branch is taken, one `create
namespace` response.  Each recursive re-entry (Terminating wait,
AlreadyExists race) consumes the next round. -/
structure NsRound where
  getResp : KRes
  createResp : KRes
deriving Repr, DecidableEq

/-- Embeds `k8s_utils.ensure_namespace` (lines 417-453) with the namespace
given directly (file=None; the file branch only derives the namespace name).
Returns the result (the namespace name, or the raised error) together with
the trace of issued calls; an exhausted oracle list is reported as an
"oracle-exhausted" error (the real code would simply keep interrogating the
cluster). -/
def ensure_namespace (mode ns : String) : List NsRound → Except String String × List Call
  | [] => (.error "oracle-exhausted", [])
  | r :: rest =>
    let tr0 := [Call.getNamespaceCall ns]
    if r.getResp.rc = 0 then
      let status := pyStrip r.getResp.out
      if status ≠ "Active" ∧ status ≠ "Terminating" then
        (.error ("namespace=" ++ ns ++ ", status=" ++ status ++
          ", expected either Active, Terminating or missing!"), tr0)
      else if status = "Terminating" then
        let res := ensure_namespace mode ns rest
        (res.1, tr0 ++ Call.waitNamespaceDeleteCall ns :: res.2)
      else (.ok ns, tr0)
    else if pyStartsWith r.getResp.err RESOURCE_NOT_FOUND then
      let c := Call.createNamespaceCall ns (mode = "dry-run")
      if pyContains r.createResp.err "AlreadyExists" then
        let res := ensure_namespace mode ns rest
        (res.1, tr0 ++ c :: res.2)
      else if r.createResp.rc ≠ 0 then
        (.error ("namespace=" ++ ns ++ " failed to create! " ++ r.createResp.err), tr0 ++ [c])
      else (.ok ns, tr0 ++ [c])
    else if ¬pyStartsWith r.getResp.err FORBIDDEN_MARKER then
      (.error r.getResp.err, tr0)
    else if ns = "default-tenant" then (.ok ns, tr0)
    else (.error ("PermissionError: " ++ r.getResp.err), tr0)

/-- The desired-phase list `spec.get("PERSISTENT_VOLUME_CLAIM_DESIRED_STATES")
or ["Bound"]` (k8s_utils.py line 485); the empty list stands for a missing or
falsy entry. -/
def pvcDesired (l : List String) : List String :=
  if l.isEmpty then ["Bound"] else l

/-- Cluster responses consumed by one (recursive) entry into ensure_pvc:
the rounds of the two ensure_namespace calls (lines 465 and 476), the stdout
of the pvc get (line 470), the optional stderr of a CalledProcessError on
create (line 480), the two phase reads (lines 493 and 506) and the return
codes of the successive kubectl wait calls (line 501). -/
structure PvcRound where
  nsO : List NsRound
  getPvcOut : String
  nsO2 : List NsRound
  createErr : Option String
  phase1 : String
  waitRc : Nat → Int
  phase2 : String

/-- The wait loop of ensure_pvc (lines 500-504): one kubectl wait per phase of
the doubled desired-states list, returning at the first rc = 0. -/
def pvc_wait_loop (name : String) (waitRc : Nat → Int) :
    List String → Nat → Option String × List Call
  | [], _ => (none, [])
  | ph :: restPh, k =>
    if waitRc k = 0 then (some ph, [Call.waitPvcCall name ph])
    else
      let r := pvc_wait_loop name waitRc restPh (k + 1)
      (r.1, Call.waitPvcCall name ph :: r.2)

/-- Embeds `k8s_utils.ensure_pvc` (lines 456-509).  One PvcRound per
(recursive) invocation; `retr` is the internal `_retries` parameter (default
1; the retry recursion passes 0).  Faithful details worth noting: when the
retry guard fails, the CalledProcessError is swallowed by the bare `if` in
the except block and control falls through to the poll section; after a
successful inner retry the outer frame also continues into its own poll
section. -/
def ensure_pvc (specMode ns pvcName : String) (desired : List String) :
    List PvcRound → Nat → Except String Unit × List Call
  | [], _ => (.error "oracle-exhausted", [])
  | o :: rest, retr =>
    let nsres := ensure_namespace specMode ns o.nsO
    match nsres.1 with
    | .error e => (.error e, nsres.2)
    | .ok _ =>
      if specMode = "dry-run" then (.ok (), nsres.2)
      else
        let tr1 := nsres.2 ++ [Call.getPvcCall pvcName]
        let createStep : Except String Unit × List Call :=
          if ¬(o.getPvcOut = "") then (.ok (), tr1)
          else
            let ns2 := ensure_namespace specMode ns o.nsO2
            match ns2.1 with
            | .error e => (.error e, tr1 ++ ns2.2)
            | .ok _ =>
              let tr2 := tr1 ++ ns2.2 ++ [Call.createFromFileCall pvcName]
              match o.createErr with
              | none => (.ok (), tr2)
              | some stderr =>
                if retr ≠ 0 ∧ pyContains stderr "terminated" = true then
                  let rcall := ensure_pvc specMode ns pvcName desired rest 0
                  (rcall.1, tr2 ++ rcall.2)
                else (.ok (), tr2)
        match createStep.1 with
        | .error e => (.error e, createStep.2)
        | .ok _ =>
          let des := pvcDesired desired
          let tr3 := createStep.2 ++ [Call.getPvcPhaseCall pvcName]
          if des.contains o.phase1 then (.ok (), tr3)
          else
            let w := pvc_wait_loop pvcName o.waitRc (des ++ des) 0
            match w.1 with
            | some _ => (.ok (), tr3 ++ w.2)
            | none =>
              (.error ("pvc_name=" ++ pvcName ++ ", pvc_status=" ++ o.phase2 ++
                " not in desired states"), tr3 ++ w.2 ++ [Call.getPvcPhaseCall pvcName])

/-- A DaemonSet status snapshot (the two fields read at k8s_utils.py
line 541). -/
structure DsStatus where
  desiredNumberScheduled : Int
  numberReady : Int
deriving Repr, DecidableEq

/-- The response of one get-daemonset-status call: return code, stderr for
failures, and the parsed JSON of its stdout for successes. -/
structure DsResp where
  rc : Int
  err : String
  status : DsStatus
deriving Repr, DecidableEq

/-- Cluster responses consumed by ensure_daemonset: the ensure_namespace
rounds, the initial get_status response (line 523), the parsed status of the
re-read after creation (line 532; that run uses check=True, so its own
failure would raise inside the collaborator), and the statuses of the
successive refetches in the poll loop (line 546). -/
structure DsOracle where
  nsO : List NsRound
  get1 : DsResp
  get2Status : DsStatus
  poll : Nat → DsStatus

/-- The poll loop of ensure_daemonset (lines 539-546): while the status has
not converged and the retry counter is nonzero, decrement it, sleep 10s and
refetch.  Returns the final status, the remaining retries and the loop
trace. -/
def ds_poll (ds : String) (fetch : Nat → DsStatus) :
    DsStatus → Nat → Nat → DsStatus × Nat × List Call
  | st, 0, _ => (st, 0, [])
  | st, retr + 1, k =>
    if st.desiredNumberScheduled = st.numberReady then (st, retr + 1, [])
    else
      let r := ds_poll ds fetch (fetch k) retr (k + 1)
      (r.1, r.2.1, Call.sleepCall :: Call.getDaemonsetStatusCall ds :: r.2.2)

/-- The poll-then-raise tail of ensure_daemonset (lines 538-548): poll with a
budget of 3 retries, then raise exactly when the counter ended at 0. -/
def ds_converge (ds : String) (o : DsOracle) (tr : List Call) (st0 : DsStatus) :
    Except String Unit × List Call :=
  let r := ds_poll ds o.poll st0 3 0
  if r.2.1 = 0 then
    (.error ("ds=" ++ ds ++ " not ready after retries=0 with interval=10 seconds"), tr ++ r.2.2)
  else (.ok (), tr ++ r.2.2)

/-- Embeds `k8s_utils.ensure_daemonset` (lines 512-548). -/
def ensure_daemonset (specMode ns ds : String) (o : DsOracle) : Except String Unit × List Call :=
  let nsres := ensure_namespace specMode ns o.nsO
  match nsres.1 with
  | .error e => (.error e, nsres.2)
  | .ok _ =>
    let tr1 := nsres.2 ++ [Call.getDaemonsetStatusCall ds]
    if ¬(o.get1.rc = 0) then
      if pyStartsWith o.get1.err RESOURCE_NOT_FOUND then
        if ¬(specMode = "dry-run") then
          ds_converge ds o (tr1 ++ [Call.createFromFileCall ds, Call.getDaemonsetStatusCall ds])
            o.get2Status
        else (.ok (), tr1)
      else (.error o.get1.err, tr1)
    else if specMode = "dry-run" then (.ok (), tr1)
    else ds_converge ds o tr1 o.get1.status

/-- A concrete DsOracle in which the namespace is Active, the DaemonSet
already exists with 1 desired / 0 ready pods, the first two refetches still
report 1 desired / 0 ready, and the third refetch reports convergence
(1 desired / 1 ready). -/
def dsThirdRefetchOracle : DsOracle :=
  ⟨[⟨⟨0, "Active", ""⟩, ⟨0, "", ""⟩⟩], ⟨0, "", ⟨1, 0⟩⟩, ⟨1, 1⟩,
   fun k => if k ≤ 1 then ⟨1, 0⟩ else ⟨1, 1⟩⟩

/-- Python `s.splitlines()` restricted to newline separators (the kubectl
`--output name` job listing holds no other line breaks). -/
def pySplitLinesAux : List Char → List Char → List (List Char)
  | [], acc => if acc.isEmpty then [] else [acc.reverse]
  | c :: cs, acc =>
    if c = '\n' then acc.reverse :: pySplitLinesAux cs []
    else pySplitLinesAux cs (c :: acc)

/-- Python `s.splitlines()` on newline separators. -/
def pySplitLines (s : String) : List (List Char) :=
  pySplitLinesAux s.toList []

/-- Python `job.split("/")[-1]` (k8s_utils.py line 591). -/
def afterLastSlash (l : List Char) : List Char :=
  (l.reverse.takeWhile (fun c => c ≠ '/')).reverse

/-- Responses consumed by create_oneliner_job: the ensure_pvc rounds, the
stdout of the job listing (line 590), whether the spec nests an
IMAGE_PULL_POLICY=Always pair with a truthy jitter offset (lines 601-602),
and the outcome of the optional await (line 611). -/
structure JobOracle where
  pvc : List PvcRound
  getJobsOut : String
  hasPullAlways : Bool
  awaitRes : Except String Bool

/-- Embeds `k8s_utils.create_oneliner_job` (lines 551-612).  specMode is the
MODE entry of the caller-supplied spec, consulted by ensure_pvc at line 577
before spec.update overwrites it; mode is the function's own mode argument
(default "normal"), which line 582 writes into the spec and which alone
governs the dry-run short-circuit at line 586 and the creation.  The local
manifest write and its redaction are not cluster calls and are not traced;
the manifest path is labelled by the container name (the template filename). -/
def create_oneliner_job (md5hex : List Char → List Char)
    (specMode mode ns pvcName : String) (desired : List String)
    (jobName instanceName containerName : List Char)
    (awaitCompletion : Bool) (o : JobOracle) : Except String (List Char) × List Call :=
  let pvcres := ensure_pvc specMode ns pvcName desired o.pvc 1
  match pvcres.1 with
  | .error e => (.error e, pvcres.2)
  | .ok _ =>
    let name0 := truncate_middle md5hex (oneliner_base jobName instanceName containerName)
    if mode = "dry-run" then (.ok name0, pvcres.2)
    else
      let tr1 := pvcres.2 ++ [Call.getJobsCall ns]
      let jobNames := (pySplitLines o.getJobsOut).map afterLastSlash
      match resolve_job_name_collision md5hex name0 jobNames with
      | none => (.error "StopIteration", tr1)
      | some nm =>
        let finalName := batch_job_name md5hex nm
        let tr2 := if o.hasPullAlways then tr1 ++ [Call.sleepCall] else tr1
        let tr3 := tr2 ++ [Call.createFromFileCall (String.mk containerName)]
        if awaitCompletion then
          match o.awaitRes with
          | .error e => (.error e, tr3 ++ [Call.awaitJobCall (String.mk finalName)])
          | .ok _ => (.ok finalName, tr3 ++ [Call.awaitJobCall (String.mk finalName)])
        else (.ok finalName, tr3)

/-- A job status snapshot as fetched at the end of await_k8s_job_completion:
the `succeeded` and `failed` counters, `none` when the key is absent from the
JSON (dict.get returns None). -/
structure JobStatus where
  succeeded : Option Int
  failed : Option Int
deriving Repr, DecidableEq

/-- Python truthiness of `dict.get(key)` for integer-valued keys: a missing
key (None) and 0 are falsy. -/
def pyTruthy : Option Int → Bool
  | none => false
  | some n => n ≠ 0

/-- Rendering of a job status inside the raised message (the repr of the
status dict in `f"{name=}, {terminal_status=}"`; the exact dict formatting is
abstracted to the two read fields). -/
def jobStatusRepr (st : JobStatus) : String :=
  "succeeded=" ++ (match st.succeeded with | none => "None" | some n => toString n) ++
  " failed=" ++ (match st.failed with | none => "None" | some n => toString n)

/-- Embeds the terminal-status resolution of `await_k8s_job_completion`
(k8s_utils.py lines 700-713): `statusJson = none` models a JSONDecodeError
when fetching the status; otherwise return True when `succeeded` is truthy,
else raise a RuntimeError embedding the job name and the terminal status.
The Bool records whether the neither-succeeded-nor-failed ambiguity warning
of line 712 was logged. -/
def await_k8s_job_completion_terminal (name : String) (statusJson : Option JobStatus) :
    Except String Bool × Bool :=
  match statusJson with
  | none => (.error "Failed to fetch job status", false)
  | some st =>
    if pyTruthy st.succeeded then (.ok true, false)
    else if ¬(pyTruthy st.failed = true) then
      (.error ("name=" ++ name ++ ", terminal_status=" ++ jobStatusRepr st), true)
    else
      (.error ("name=" ++ name ++ ", terminal_status=" ++ jobStatusRepr st), false)

/-- The value kubectl_cp and its helpers return: remote-to-remote dry-run
returns None (a bare `return`), successes and the invalid-src guard return an
int, and an exhausted remote-to-remote retry budget returns the list of
`(src_rc, dest_rc)` pairs. -/
inductive CpOutcome where
  | retNone
  | retInt (n : Int)
  | retPairs (l : List (Int × Int))
deriving Repr, DecidableEq

/-- Environment of an `_up` upload: whether the local source path exists, and
whether after the transfer the remote bytes equal the local bytes (the code
never inspects the latter). -/
structure UpOracle where
  sourceExists : Bool
  remoteBytesEqualLocal : Bool
deriving Repr, DecidableEq

/-- Embeds `k8s_utils._up` (lines 194-201): outside dry-run a missing source
raises FileNotFoundError; otherwise a single `kubectl cp --retries` is
streamed and 0 is returned.  No checksum is computed on either side. -/
def _up (src dest mode : String) (o : UpOracle) : Except String CpOutcome × List Call :=
  if ¬(o.sourceExists = true) ∧ ¬(mode = "dry-run") then
    (.error (src ++ " does not exist"), [])
  else (.ok (.retInt 0), [Call.kubectlCpCall src dest mode])

/-- Environment of a `_dl` download: the du probe response (return code,
stderr, and the reported size of the remote source), the free disk space of
the destination directory, whether the remote source is a directory (the
code never branches on this), and whether after the transfer the local bytes
equal the remote bytes (never inspected).  Sizes are in bytes: the `Unit`
comparison of k8s_utils.py line 184 orders by byte value. -/
structure DlOracle where
  duRc : Int
  duErr : String
  duOutBytes : Nat
  freeBytes : Nat
  isDir : Bool
  localBytesEqualRemote : Bool
deriving Repr, DecidableEq

/-- Embeds `k8s_utils._dl` (lines 138-191): wait for the pod, probe the size
with `du -sh`, raise on a failed probe, raise OSError when the reported size
exceeds the free local disk space, otherwise stream one `kubectl cp
--retries` and return 0.  The reported size is used as-is — it is never
doubled for directories — and no checksum is computed on either side.  (The
container-option munging of lines 148-154 only reshapes the selector handed
to the wait call and is not modelled.) -/
def _dl (src dest mode : String) (o : DlOracle) : Except String CpOutcome × List Call :=
  match parse_remote_path src with
  | .error e => (.error e, [])
  | .ok rp =>
    let tr0 := [Call.waitPodReadyCall rp.1, Call.execDuCall rp.1 rp.2]
    if ¬(o.duRc = 0) then (.error o.duErr, tr0)
    else if o.freeBytes < o.duOutBytes then
      (.error "Insufficient space on local host", tr0)
    else (.ok (.retInt 0), tr0 ++ [Call.kubectlCpCall src dest mode])

/-- Python `tuple(a, b)`: calling the tuple constructor with two positional
arguments raises TypeError — tuple takes at most one (iterable) argument. -/
def pyTupleTwo (_a _b : Int) : Except String (Int × Int) :=
  .error "TypeError: tuple expected at most 1 argument, got 2"

/-- Environment of a remote-to-remote transfer: the (src_rc, dest_rc) exit
codes of the tar pipeline of each attempt (1-based). -/
structure R2ROracle where
  attempt : Nat → Int × Int

/-- The retry loop of `_remote_to_remote` (lines 240-287), with fuel equal to
the attempt budget: on a clean attempt return 0; otherwise the appended
element is `tuple(src_rc, dest_rc)`, whose evaluation raises; were a pair
produced, it would be accumulated and the loop would re-enter until the
budget is exhausted, then return the accumulated pairs. -/
def r2r_loop (srcRemote destRemote : String) (att : Nat → Int × Int) (maxAttempts : Nat) :
    Nat → Nat → List (Int × Int) → Except String CpOutcome × List Call
  | 0, _, _ => (.error "unreachable: fuel equals the attempt budget", [])
  | fuel + 1, attemptsDone, acc =>
    let k := attemptsDone + 1
    let sd := att k
    let tr0 := [Call.execTarPipeCall srcRemote destRemote]
    if sd.1 = 0 ∧ sd.2 = 0 then (.ok (.retInt 0), tr0)
    else
      match pyTupleTwo sd.1 sd.2 with
      | .error e => (.error e, tr0)
      | .ok p =>
        if maxAttempts ≤ k then (.ok (.retPairs (acc ++ [p])), tr0)
        else
          let r := r2r_loop srcRemote destRemote att maxAttempts fuel k (acc ++ [p])
          (r.1, tr0 ++ r.2)

/-- Embeds `k8s_utils._remote_to_remote` (lines 203-287): parse both remote
targets, return 1 on a src without a path, log-and-return None under
dry-run, otherwise run the tar-pipeline attempt loop with a budget of
`max 1 retries`. -/
def _remote_to_remote (src dest mode : String) (retries : Nat) (o : R2ROracle) :
    Except String CpOutcome × List Call :=
  match parse_remote_path src, parse_remote_path dest with
  | .error e, _ => (.error e, [])
  | _, .error e => (.error e, [])
  | .ok srcRp, .ok destRp =>
    if srcRp.2 = "" then (.ok (.retInt 1), [])
    else if mode = "dry-run" then (.ok .retNone, [])
    else
      let maxA := max 1 retries
      r2r_loop srcRp.1 destRp.1 o.attempt maxA maxA 0 []

/-- Environments of the three kubectl_cp branches. -/
structure CpOracle where
  upO : UpOracle
  dlO : DlOracle
  r2rO : R2ROracle

/-- Embeds `k8s_utils.kubectl_cp` (lines 82-135): classify src/dest by the
presence of a colon; raise ValueError on a (local, local) pair before any
subprocess, filesystem or network touch; otherwise dispatch.  The falsy
defaults of lines 123-133 are modelled with "" standing for a falsy mode and
0 for a falsy retries. -/
def kubectl_cp (src dest mode : String) (retries : Nat) (o : CpOracle) :
    Except String CpOutcome × List Call :=
  let isRemoteSrc := src.toList.contains ':'
  let isRemoteDest := dest.toList.contains ':'
  if ¬(isRemoteSrc = true) ∧ ¬(isRemoteDest = true) then
    (.error "Char : not found in source/dest, suggesting they are both local paths.", [])
  else
    let effMode := if mode = "" then "normal" else mode
    let effRetries := if retries = 0 then 1 else retries
    if isRemoteSrc ∧ isRemoteDest then
      _remote_to_remote src dest effMode effRetries o.r2rO
    else if isRemoteSrc then _dl src dest effMode o.dlO
    else _up src dest effMode o.upO

end Basepak

namespace Basepak

theorem splitFirstOn_eq_takeWhile_dropWhile (sep : Char) (l : List Char) :
    splitFirstOn sep l =
      (l.takeWhile (fun c => c ≠ sep),
       if l.contains sep then some ((l.dropWhile (fun c => c ≠ sep)).tail) else none) := by
  induction l with
  | nil => simp [splitFirstOn]
  | cons c cs ih =>
    by_cases h : c = sep
    · subst h
      simp [splitFirstOn, List.takeWhile, List.dropWhile, List.contains_cons]
    · simp only [splitFirstOn, if_neg h, ih, List.takeWhile, List.dropWhile,
        List.contains_cons]
      have hbeq : (c == sep) = false := by
        simp [h]
      have h2 : ¬sep = c := fun hh => h hh.symm
      simp [hbeq, h, h2]

theorem joinSpace_cons_cons (x y : List Char) (zs : List (List Char)) :
    joinSpace (x :: y :: zs) = x ++ ' ' :: joinSpace (y :: zs) := by
  simp [joinSpace, List.intersperse]

/-- C10: `_parse_remote_path` raises ValueError on the empty string; for a
non-empty string with no colon it returns `(string, "")`; otherwise it splits
at the first colon into a selector part and a path part, and when the path
part holds several whitespace-separated tokens only the first token becomes
the path while the remaining tokens are appended back onto the selector. -/
theorem parse_remote_path_spec (s : String) :
    (parse_remote_path "" = .error "Empty string received") ∧
    (s.toList ≠ [] → s.toList.contains ':' = false → parse_remote_path s = .ok (s, "")) ∧
    (s.toList.contains ':' = true →
      (pySplitWs ((s.toList.dropWhile (fun c => c ≠ ':')).tail) = [] →
        parse_remote_path s = .ok (⟨s.toList.takeWhile (fun c => c ≠ ':')⟩, "")) ∧
      (∀ t, pySplitWs ((s.toList.dropWhile (fun c => c ≠ ':')).tail) = [t] →
        parse_remote_path s =
          .ok (⟨s.toList.takeWhile (fun c => c ≠ ':')⟩,
               ⟨(s.toList.dropWhile (fun c => c ≠ ':')).tail⟩)) ∧
      (∀ t u ts, pySplitWs ((s.toList.dropWhile (fun c => c ≠ ':')).tail) = t :: u :: ts →
        parse_remote_path s =
          .ok (⟨s.toList.takeWhile (fun c => c ≠ ':') ++ ' ' :: joinSpace (u :: ts)⟩, ⟨t⟩))) := by
  refine ⟨rfl, ?_, ?_⟩
  · intro hne hcol
    cases hl : s.toList with
    | nil => exact absurd hl hne
    | cons c cs =>
      rw [hl] at hcol
      have hl' : s.data = c :: cs := hl
      have hnotmem : ¬(':' ∈ c :: cs) := by
        simpa using hcol
      simp [parse_remote_path, hl', hnotmem]
  · intro hcol
    have hne : s.toList.isEmpty = false := by
      cases hl : s.toList with
      | nil => rw [hl] at hcol; simp [List.contains] at hcol
      | cons c cs => rfl
    have hsplit := splitFirstOn_eq_takeWhile_dropWhile ':' s.toList
    rw [hcol] at hsplit
    simp only [ne_eq, decide_not, if_true] at hsplit
    refine ⟨?_, ?_, ?_⟩
    · intro hws
      simp only [ne_eq, decide_not, String.toList] at hws
      simp only [parse_remote_path, hne, Bool.false_eq_true, if_false, hcol, hsplit]
      simp [hws]
    · intro t hws
      simp only [ne_eq, decide_not, String.toList] at hws
      simp only [parse_remote_path, hne, Bool.false_eq_true, if_false, hcol, hsplit]
      simp [hws]
    · intro t u ts hws
      simp only [ne_eq, decide_not, String.toList] at hws
      simp only [parse_remote_path, hne, Bool.false_eq_true, if_false, hcol, hsplit]
      simp [hws, joinSpace_cons_cons]

theorem contains_iff_mem_listChar (l : List (List Char)) (a : List Char) :
    l.contains a = true ↔ a ∈ l := by
  simp [List.contains]

theorem truncate_middle_of_le (md5hex : List Char → List Char) (s : List Char)
    (h : s.length ≤ 63) : truncate_middle md5hex s = s := by
  simp [truncate_middle, h]

theorem truncate_middle_length (md5hex : List Char → List Char)
    (hmd5 : ∀ t, (md5hex t).length = 32) (s : List Char) :
    (truncate_middle md5hex s).length ≤ 63 := by
  by_cases h : s.length ≤ 63
  · rw [truncate_middle_of_le md5hex s h]
    exact h
  · have h64 : 64 ≤ s.length := by omega
    simp only [truncate_middle, if_neg h, truncate, pyTake, pyTakeLast]
    have hlen35 : (s.take (34 + 1)).length = 35 := by
      rw [List.length_take]
      omega
    rw [hlen35]
    simp only [show ¬(35 ≤ 34) by omega, if_false]
    simp [List.length_take, List.length_drop, hmd5]
    omega

theorem find?_range'_min (p : Nat → Bool) (a n i : Nat)
    (h : (List.range' a n).find? p = some i) :
    a ≤ i ∧ i < a + n ∧ p i = true ∧ ∀ j, a ≤ j → j < i → p j = false := by
  induction n generalizing a with
  | zero => simp [List.range'] at h
  | succ n ih =>
    rw [List.range'_succ] at h
    by_cases hp : p a
    · rw [List.find?_cons_of_pos _ hp] at h
      injection h with h
      subst h
      exact ⟨Nat.le_refl a, by omega, hp, fun j hj1 hj2 => absurd hj1 (by omega)⟩
    · rw [List.find?_cons_of_neg _ (by simpa using hp)] at h
      obtain ⟨h1, h2, h3, h4⟩ := ih (a + 1) h
      refine ⟨by omega, by omega, h3, ?_⟩
      intro j hj1 hj2
      rcases Nat.eq_or_lt_of_le hj1 with rfl | hlt
      · simpa using hp
      · exact h4 j (by omega) hj2

/-- C3: the job name that `create_oneliner_job` computes is never one of the
currently listed job names; the base name is truncated to the 63-character
limit (and the re-truncation inside the template generator leaves it
unchanged); on a collision the returned name carries the smallest unused
numeric suffix among -1..-999, re-truncated to fit; and the suffix search is
bounded: `none` (the StopIteration of the exhausted `next`) occurs exactly
when all 999 suffixed candidates collide. -/
theorem create_oneliner_job_name_spec (md5hex : List Char → List Char)
    (hmd5 : ∀ t, (md5hex t).length = 32)
    (jobName instanceName containerName : List Char) (jobNames : List (List Char)) :
    (∀ nm, create_oneliner_job_name md5hex jobName instanceName containerName jobNames = some nm →
      nm ∉ jobNames ∧ nm.length ≤ 63 ∧ batch_job_name md5hex nm = nm ∧
      ((truncate_middle md5hex (oneliner_base jobName instanceName containerName)) ∈ jobNames →
        ∃ i, 1 ≤ i ∧ i ≤ 999 ∧
          nm = jobNameCandidate md5hex
            (truncate_middle md5hex (oneliner_base jobName instanceName containerName)) i ∧
          ∀ j, 1 ≤ j → j < i →
            jobNameCandidate md5hex
              (truncate_middle md5hex (oneliner_base jobName instanceName containerName)) j
              ∈ jobNames)) ∧
    (create_oneliner_job_name md5hex jobName instanceName containerName jobNames = none →
      ∀ i, 1 ≤ i → i ≤ 999 →
        jobNameCandidate md5hex
          (truncate_middle md5hex (oneliner_base jobName instanceName containerName)) i
          ∈ jobNames) := by
  set name0 := truncate_middle md5hex (oneliner_base jobName instanceName containerName) with hname0
  have hres : create_oneliner_job_name md5hex jobName instanceName containerName jobNames =
      resolve_job_name_collision md5hex name0 jobNames := rfl
  rw [hres]
  unfold resolve_job_name_collision
  by_cases hcond : ¬jobNames.isEmpty = true ∧ jobNames.contains name0 = true
  · rw [if_pos hcond]
    rcases hfind : (List.range' 1 999).find?
        (fun i => !jobNames.contains (jobNameCandidate md5hex name0 i)) with _ | i
    · refine ⟨?_, ?_⟩
      · intro nm hnm
        simp at hnm
      · intro _ i h1 h999
        have hmem : i ∈ List.range' 1 999 := by
          rw [List.mem_range'_1]
          omega
        have hnp := (List.find?_eq_none.mp hfind) i hmem
        have hcontains : jobNames.contains (jobNameCandidate md5hex name0 i) = true := by
          cases hcc : jobNames.contains (jobNameCandidate md5hex name0 i) with
          | false => rw [hcc] at hnp; simp at hnp
          | true => rfl
        exact (contains_iff_mem_listChar _ _).mp hcontains
    · refine ⟨?_, ?_⟩
      · intro nm hnm
        have hnm' : jobNameCandidate md5hex name0 i = nm := by
          simpa using hnm
        subst hnm'
        obtain ⟨hi1, hi2, hip, hmin⟩ := find?_range'_min _ 1 999 i hfind
        have hnotmem : jobNameCandidate md5hex name0 i ∉ jobNames := by
          intro hmem
          have := (contains_iff_mem_listChar jobNames _).mpr hmem
          rw [this] at hip
          simp at hip
        refine ⟨hnotmem, truncate_middle_length md5hex hmd5 _, ?_, ?_⟩
        · exact truncate_middle_of_le md5hex _ (truncate_middle_length md5hex hmd5 _)
        · intro _
          refine ⟨i, hi1, by omega, rfl, ?_⟩
          intro j hj1 hj2
          have hj := hmin j hj1 hj2
          have hjc : jobNames.contains (jobNameCandidate md5hex name0 j) = true := by
            cases hcc : jobNames.contains (jobNameCandidate md5hex name0 j) with
            | false => rw [hcc] at hj; simp at hj
            | true => rfl
          exact (contains_iff_mem_listChar _ _).mp hjc
      · intro habs
        simp at habs
  · simp only [if_neg hcond]
    refine ⟨?_, ?_⟩
    · intro nm hnm
      simp only [Option.some.injEq] at hnm
      subst hnm
      have hnotmem : name0 ∉ jobNames := by
        intro hmem
        have hne : jobNames.isEmpty = false := by
          cases jobNames with
          | nil => simp at hmem
          | cons x xs => rfl
        have hcontains := (contains_iff_mem_listChar jobNames name0).mpr hmem
        exact hcond ⟨by simp [hne], hcontains⟩
      refine ⟨hnotmem, truncate_middle_length md5hex hmd5 _, ?_, ?_⟩
      · exact truncate_middle_of_le md5hex _ (truncate_middle_length md5hex hmd5 _)
      · intro hmem
        exact absurd hmem hnotmem
    · intro habs
      simp at habs

theorem ensure_namespace_dry_run_no_mutation (ns : String) (rounds : List NsRound) :
    ∀ c ∈ (ensure_namespace "dry-run" ns rounds).2, c.isMutating = false := by
  induction rounds with
  | nil =>
    intro c hc
    simp [ensure_namespace] at hc
  | cons r rest ih =>
    intro c hc
    simp only [ensure_namespace] at hc
    split_ifs at hc <;>
      simp only [List.mem_append, List.mem_cons, List.mem_singleton,
        List.not_mem_nil, or_false, false_or] at hc <;>
      first
        | (rcases hc with rfl | rfl | hc
           · rfl
           · rfl
           · exact ih c hc)
        | (rcases hc with rfl | hc
           · rfl
           · first
             | exact ih c hc
             | (subst hc; rfl))
        | (subst hc; rfl)

theorem ensure_pvc_dry_run_no_mutation (ns pvcName : String) (desired : List String)
    (rounds : List PvcRound) (retr : Nat) :
    ∀ c ∈ (ensure_pvc "dry-run" ns pvcName desired rounds retr).2, c.isMutating = false := by
  intro c hc
  cases rounds with
  | nil => simp [ensure_pvc] at hc
  | cons o rest =>
    simp only [ensure_pvc] at hc
    rcases hres : (ensure_namespace "dry-run" ns o.nsO).1 with e | v <;> rw [hres] at hc
    · exact ensure_namespace_dry_run_no_mutation ns o.nsO c hc
    · simp at hc
      exact ensure_namespace_dry_run_no_mutation ns o.nsO c hc

theorem ensure_daemonset_dry_run_no_mutation (ns ds : String) (o : DsOracle) :
    ∀ c ∈ (ensure_daemonset "dry-run" ns ds o).2, c.isMutating = false := by
  intro c hc
  simp only [ensure_daemonset] at hc
  rcases hres : (ensure_namespace "dry-run" ns o.nsO).1 with e | v <;> rw [hres] at hc
  · exact ensure_namespace_dry_run_no_mutation ns o.nsO c hc
  · by_cases h1 : o.get1.rc = 0 <;>
      by_cases h2 : pyStartsWith o.get1.err RESOURCE_NOT_FOUND = true <;>
      simp [h1, h2] at hc <;>
      (rcases hc with hc | rfl
       · exact ensure_namespace_dry_run_no_mutation ns o.nsO c hc
       · rfl)

theorem create_oneliner_job_dry_run_no_mutation (md5hex : List Char → List Char)
    (ns pvcName : String) (desired : List String)
    (jobName instanceName containerName : List Char) (awaitCompletion : Bool) (o : JobOracle) :
    ∀ c ∈ (create_oneliner_job md5hex "dry-run" "dry-run" ns pvcName desired
      jobName instanceName containerName awaitCompletion o).2, c.isMutating = false := by
  intro c hc
  simp only [create_oneliner_job] at hc
  rcases hres : (ensure_pvc "dry-run" ns pvcName desired o.pvc 1).1 with e | v <;> rw [hres] at hc
  · exact ensure_pvc_dry_run_no_mutation ns pvcName desired o.pvc 1 c hc
  · simp at hc
    exact ensure_pvc_dry_run_no_mutation ns pvcName desired o.pvc 1 c hc

/-- Counterexample for C2: a spec whose MODE is "dry-run" handed to
create_oneliner_job together with the function's default mode="normal":
ensure_pvc short-circuits on the spec's MODE, but create_oneliner_job
short-circuits only on its mode argument, so a mutating kubectl create is
still issued. -/
theorem create_oneliner_job_spec_mode_counterexample :
    ((create_oneliner_job md5const "dry-run" "normal" "demo" "pvc" []
        "job".toList "inst".toList "c".toList false
        ⟨[⟨[⟨⟨0, "Active", ""⟩, ⟨0, "", ""⟩⟩], "", [], none, "Bound", fun _ => 1, ""⟩],
         "", false, .ok true⟩).2.any Call.isMutating) = true := by
  rfl

/-- C2 (amended): under dry-run, ensure_namespace (whose create carries the
client-side --dry-run=client flag), ensure_pvc and ensure_daemonset never
issue a mutating call, whatever the cluster responds; create_oneliner_job
short-circuits on its own mode argument (which it writes into the spec's
MODE), not on the incoming spec's MODE, so it issues no mutating call when
both the spec MODE consulted by ensure_pvc and its mode argument are
"dry-run" — while a spec MODE of "dry-run" alone does not prevent the job
create (see the counterexample). -/
theorem dry_run_no_mutation_spec :
    (∀ ns rounds, ∀ c ∈ (ensure_namespace "dry-run" ns rounds).2, c.isMutating = false) ∧
    (∀ ns pvcName desired rounds retr,
      ∀ c ∈ (ensure_pvc "dry-run" ns pvcName desired rounds retr).2, c.isMutating = false) ∧
    (∀ ns ds o, ∀ c ∈ (ensure_daemonset "dry-run" ns ds o).2, c.isMutating = false) ∧
    (∀ md5hex ns pvcName desired jobName instanceName containerName awaitCompletion o,
      ∀ c ∈ (create_oneliner_job md5hex "dry-run" "dry-run" ns pvcName desired
        jobName instanceName containerName awaitCompletion o).2, c.isMutating = false) :=
  ⟨ensure_namespace_dry_run_no_mutation,
   ensure_pvc_dry_run_no_mutation,
   ensure_daemonset_dry_run_no_mutation,
   create_oneliner_job_dry_run_no_mutation⟩

/-- Witness for C2 (amended): a concrete dry-run trace of ensure_pvc holds
only the namespace read, which is not a mutation. -/
theorem dry_run_no_mutation_spec_witness :
    Call.getNamespaceCall "demo" ∈
      (ensure_pvc "dry-run" "demo" "pvc" []
        [⟨[⟨⟨0, "Active", ""⟩, ⟨0, "", ""⟩⟩], "", [], none, "Bound", fun _ => 1, ""⟩] 1).2 ∧
    (Call.getNamespaceCall "demo").isMutating = false := by
  refine ⟨by decide, ?_⟩
  exact dry_run_no_mutation_spec.2.1 "demo" "pvc" []
    [⟨[⟨⟨0, "Active", ""⟩, ⟨0, "", ""⟩⟩], "", [], none, "Bound", fun _ => 1, ""⟩] 1
    (Call.getNamespaceCall "demo") (by decide)

theorem ds_poll_retr_zero_iff (ds : String) (fetch : Nat → DsStatus) (st0 : DsStatus) :
    (ds_poll ds fetch st0 3 0).2.1 = 0 ↔
      (¬st0.desiredNumberScheduled = st0.numberReady ∧
       ¬(fetch 0).desiredNumberScheduled = (fetch 0).numberReady ∧
       ¬(fetch 1).desiredNumberScheduled = (fetch 1).numberReady) := by
  by_cases h0 : st0.desiredNumberScheduled = st0.numberReady
  · simp [ds_poll, h0]
  · by_cases h1 : (fetch 0).desiredNumberScheduled = (fetch 0).numberReady
    · simp [ds_poll, h0, h1]
    · by_cases h2 : (fetch 1).desiredNumberScheduled = (fetch 1).numberReady
      · simp [ds_poll, h0, h1, h2]
      · simp [ds_poll, h0, h1, h2]

theorem ds_poll_sleep_count (ds : String) (fetch : Nat → DsStatus) :
    ∀ retr st k, ((ds_poll ds fetch st retr k).2.2.count Call.sleepCall) ≤ retr := by
  intro retr
  induction retr with
  | zero =>
    intro st k
    simp [ds_poll]
  | succ n ih =>
    intro st k
    by_cases h : st.desiredNumberScheduled = st.numberReady
    · simp [ds_poll, h]
    · have hrec := ih (fetch k) (k + 1)
      simp [ds_poll, h, List.count_cons]
      omega

theorem ensure_namespace_sleep_free (mode ns : String) (rounds : List NsRound) :
    ∀ c ∈ (ensure_namespace mode ns rounds).2, ¬c = Call.sleepCall := by
  induction rounds with
  | nil =>
    intro c hc
    simp [ensure_namespace] at hc
  | cons r rest ih =>
    intro c hc
    simp only [ensure_namespace] at hc
    split_ifs at hc <;>
      simp only [List.mem_append, List.mem_cons, List.mem_singleton,
        List.not_mem_nil, or_false, false_or] at hc <;>
      first
        | (rcases hc with rfl | rfl | hc
           · simp
           · simp
           · exact ih c hc)
        | (rcases hc with rfl | hc
           · simp
           · first
             | exact ih c hc
             | (subst hc; simp))
        | (subst hc; simp)

/-- Counterexample for C9: the namespace is Active and the DaemonSet already
exists; the poll statuses do not converge on the initial read or the first
two refetches, but do converge on the third refetch — which is within the
3-attempt budget — yet ensure_daemonset raises. -/
theorem ensure_daemonset_third_refetch_counterexample :
    (ensure_daemonset "normal" "demo" "journal" dsThirdRefetchOracle).1 =
      .error "ds=journal not ready after retries=0 with interval=10 seconds" ∧
    (dsThirdRefetchOracle.poll 2).desiredNumberScheduled =
      (dsThirdRefetchOracle.poll 2).numberReady := by
  exact ⟨rfl, rfl⟩

/-- C9 (amended): once ensure_daemonset reaches its poll loop (namespace ok,
initial status read succeeded, not dry-run), it returns normally exactly when
convergence is observed in the initial status or the first two refetches; the
third refetch is still performed but its value cannot avert the raise.  At
most 3 sleep-then-refetch attempts are made (10s apart in the source). -/
theorem ensure_daemonset_poll_spec (specMode ns ds : String) (o : DsOracle)
    (hns : (ensure_namespace specMode ns o.nsO).1 = .ok ns)
    (hrc : o.get1.rc = 0)
    (hmode : ¬specMode = "dry-run") :
    ((ensure_daemonset specMode ns ds o).1 = .ok () ↔
      (o.get1.status.desiredNumberScheduled = o.get1.status.numberReady ∨
       (o.poll 0).desiredNumberScheduled = (o.poll 0).numberReady ∨
       (o.poll 1).desiredNumberScheduled = (o.poll 1).numberReady)) ∧
    ((ensure_daemonset specMode ns ds o).2.count Call.sleepCall ≤ 3) := by
  have hds : ensure_daemonset specMode ns ds o =
      ds_converge ds o ((ensure_namespace specMode ns o.nsO).2 ++
        [Call.getDaemonsetStatusCall ds]) o.get1.status := by
    simp [ensure_daemonset, hns, hrc, hmode]
  have hnosleep : ((ensure_namespace specMode ns o.nsO).2.count Call.sleepCall) = 0 :=
    List.count_eq_zero.mpr (fun hmem => ensure_namespace_sleep_free specMode ns o.nsO _ hmem rfl)
  have hle := ds_poll_sleep_count ds o.poll 3 o.get1.status 0
  rw [hds]
  simp only [ds_converge]
  by_cases hzero : (ds_poll ds o.poll o.get1.status 3 0).2.1 = 0
  · rw [if_pos hzero]
    refine ⟨?_, ?_⟩
    · constructor
      · intro habs
        simp at habs
      · intro hconv
        have hnc := (ds_poll_retr_zero_iff ds o.poll o.get1.status).mp hzero
        rcases hconv with h | h | h
        · exact absurd h hnc.1
        · exact absurd h hnc.2.1
        · exact absurd h hnc.2.2
    · show ((ensure_namespace specMode ns o.nsO).2 ++ [Call.getDaemonsetStatusCall ds] ++
          (ds_poll ds o.poll o.get1.status 3 0).2.2).count Call.sleepCall ≤ 3
      rw [List.count_append, List.count_append, hnosleep]
      simp only [List.count_cons, List.count_nil]
      simp
      omega
  · rw [if_neg hzero]
    refine ⟨?_, ?_⟩
    · constructor
      · intro _
        have hconv := (ds_poll_retr_zero_iff ds o.poll o.get1.status).not.mp hzero
        push_neg at hconv
        by_cases h0 : o.get1.status.desiredNumberScheduled = o.get1.status.numberReady
        · exact Or.inl h0
        · by_cases h1 : (o.poll 0).desiredNumberScheduled = (o.poll 0).numberReady
          · exact Or.inr (Or.inl h1)
          · exact Or.inr (Or.inr (hconv h0 h1))
      · intro _
        rfl
    · show ((ensure_namespace specMode ns o.nsO).2 ++ [Call.getDaemonsetStatusCall ds] ++
          (ds_poll ds o.poll o.get1.status 3 0).2.2).count Call.sleepCall ≤ 3
      rw [List.count_append, List.count_append, hnosleep]
      simp only [List.count_cons, List.count_nil]
      simp
      omega

/-- Witness for C9 (amended): a concrete run converging on the first refetch
returns normally with one sleep. -/
theorem ensure_daemonset_poll_spec_witness :
    (ensure_daemonset "normal" "demo" "journal"
      ⟨[⟨⟨0, "Active", ""⟩, ⟨0, "", ""⟩⟩], ⟨0, "", ⟨1, 0⟩⟩, ⟨1, 1⟩, fun _ => ⟨1, 1⟩⟩).1 =
      .ok () := by
  have h := (ensure_daemonset_poll_spec "normal" "demo" "journal"
    ⟨[⟨⟨0, "Active", ""⟩, ⟨0, "", ""⟩⟩], ⟨0, "", ⟨1, 0⟩⟩, ⟨1, 1⟩, fun _ => ⟨1, 1⟩⟩
    (by rfl) (by rfl) (by decide)).1
  exact h.mpr (Or.inr (Or.inl rfl))

/-- C8: when the namespace create inside ensure_namespace fails with an
AlreadyExists error (creation raced another creator), no error surfaces: the
function re-reads the namespace state and returns the existing namespace's
name. -/
theorem ensure_namespace_already_exists_spec (mode ns : String) (r1 r2 : NsRound)
    (rest : List NsRound)
    (h1rc : ¬r1.getResp.rc = 0)
    (h1nf : pyStartsWith r1.getResp.err RESOURCE_NOT_FOUND = true)
    (h1ae : pyContains r1.createResp.err "AlreadyExists" = true)
    (h2rc : r2.getResp.rc = 0)
    (h2st : pyStrip r2.getResp.out = "Active") :
    ensure_namespace mode ns (r1 :: r2 :: rest) =
      (.ok ns, [Call.getNamespaceCall ns, Call.createNamespaceCall ns (mode = "dry-run"),
                Call.getNamespaceCall ns]) := by
  obtain ⟨⟨rc1, out1, err1⟩, ⟨crc1, cout1, cerr1⟩⟩ := r1
  obtain ⟨⟨rc2, out2, err2⟩, ⟨crc2, cout2, cerr2⟩⟩ := r2
  replace h1rc : ¬rc1 = 0 := h1rc
  replace h1nf : pyStartsWith err1 RESOURCE_NOT_FOUND = true := h1nf
  replace h1ae : pyContains cerr1 "AlreadyExists" = true := h1ae
  replace h2rc : rc2 = 0 := h2rc
  replace h2st : pyStrip out2 = "Active" := h2st
  subst h2rc
  simp [ensure_namespace, h1rc, h1nf, h1ae, h2st]

/-- Witness for C8: a concrete AlreadyExists race in normal mode resolves to
the existing namespace. -/
theorem ensure_namespace_already_exists_spec_witness :
    ensure_namespace "normal" "demo"
        [⟨⟨1, "", "Error from server (NotFound): namespaces demo not found"⟩,
          ⟨1, "", "Error from server (AlreadyExists): namespaces demo already exists"⟩⟩,
         ⟨⟨0, "Active", ""⟩, ⟨0, "", ""⟩⟩] =
      (.ok "demo", [Call.getNamespaceCall "demo", Call.createNamespaceCall "demo" false,
                    Call.getNamespaceCall "demo"]) := by
  have h := ensure_namespace_already_exists_spec "normal" "demo"
    ⟨⟨1, "", "Error from server (NotFound): namespaces demo not found"⟩,
     ⟨1, "", "Error from server (AlreadyExists): namespaces demo already exists"⟩⟩
    ⟨⟨0, "Active", ""⟩, ⟨0, "", ""⟩⟩ []
    (by decide) (by decide) (by decide) (by decide) (by decide)
  rw [h]
  rfl

/-- Witness for C3: a listing already holding the base name and its -1
suffix; the resolved name takes the smallest free suffix -2. -/
theorem create_oneliner_job_name_spec_witness :
    create_oneliner_job_name md5const
        "job".toList "inst".toList "c".toList ["job".toList, "job-1".toList] =
      some "job-2".toList ∧ "job-2".toList ∉ ["job".toList, "job-1".toList] := by
  have hmd5 : ∀ t, (md5const t).length = 32 := by
    intro t
    show ("0123456789abcdef0123456789abcdef".toList).length = 32
    decide
  have h := (create_oneliner_job_name_spec md5const hmd5 "job".toList "inst".toList "c".toList
    ["job".toList, "job-1".toList]).1 "job-2".toList (by decide)
  exact ⟨by decide, h.1⟩

/-- C4: the terminal resolution of await_k8s_job_completion returns True
exactly when the terminal status has `succeeded` set (truthy); for every
other terminal status it raises a RuntimeError whose message embeds the job
name and the terminal status; in the ambiguous case where neither
`succeeded` nor `failed` is set it logs a warning noting the ambiguity and
still raises, and the warning is logged only then. -/
theorem await_k8s_job_completion_terminal_spec (name : String) (st : JobStatus) :
    ((await_k8s_job_completion_terminal name (some st)).1 = .ok true ↔
      pyTruthy st.succeeded = true) ∧
    (pyTruthy st.succeeded = false →
      (await_k8s_job_completion_terminal name (some st)).1 =
        .error ("name=" ++ name ++ ", terminal_status=" ++ jobStatusRepr st)) ∧
    (pyTruthy st.succeeded = false → pyTruthy st.failed = false →
      (await_k8s_job_completion_terminal name (some st)).2 = true) ∧
    (pyTruthy st.succeeded = false → pyTruthy st.failed = true →
      (await_k8s_job_completion_terminal name (some st)).2 = false) := by
  by_cases hs : pyTruthy st.succeeded = true
  · simp [await_k8s_job_completion_terminal, hs]
  · have hs' : pyTruthy st.succeeded = false := by
      cases h : pyTruthy st.succeeded
      · rfl
      · exact absurd h hs
    by_cases hf : pyTruthy st.failed = true
    · simp [await_k8s_job_completion_terminal, hs', hf]
    · have hf' : pyTruthy st.failed = false := by
        cases h : pyTruthy st.failed
        · rfl
        · exact absurd h hf
      simp [await_k8s_job_completion_terminal, hs', hf']

/-- Witness for C4: a job whose terminal status is ambiguously neither
succeeded nor failed raises with the name and status embedded, after logging
the ambiguity warning. -/
theorem await_k8s_job_completion_terminal_spec_witness :
    (await_k8s_job_completion_terminal "run" (some ⟨none, none⟩)).1 =
      .error "name=run, terminal_status=succeeded=None failed=None" ∧
    (await_k8s_job_completion_terminal "run" (some ⟨none, none⟩)).2 = true := by
  have h := await_k8s_job_completion_terminal_spec "run" ⟨none, none⟩
  exact ⟨(h.2.1 rfl).trans (by rfl), h.2.2.1 rfl rfl⟩

/-- C5: when neither src nor dest holds a colon, kubectl_cp raises ValueError
for every mode and retry budget, with an empty call trace: no subprocess is
started and neither the filesystem nor the network is touched. -/
theorem kubectl_cp_local_local_spec (src dest mode : String) (retries : Nat) (o : CpOracle)
    (hsrc : src.toList.contains ':' = false)
    (hdest : dest.toList.contains ':' = false) :
    kubectl_cp src dest mode retries o =
      (.error "Char : not found in source/dest, suggesting they are both local paths.", []) := by
  have h1 : ¬(src.toList.contains ':' = true) := by rw [hsrc]; simp
  have h2 : ¬(dest.toList.contains ':' = true) := by rw [hdest]; simp
  simp only [kubectl_cp]
  rw [if_pos ⟨h1, h2⟩]

/-- Witness for C5: two plain local paths are rejected with no call issued. -/
theorem kubectl_cp_local_local_spec_witness :
    kubectl_cp "/tmp/a" "/tmp/b" "normal" 3
        ⟨⟨true, true⟩, ⟨0, "", 0, 0, false, true⟩, ⟨fun _ => (0, 0)⟩⟩ =
      (.error "Char : not found in source/dest, suggesting they are both local paths.", []) := by
  exact kubectl_cp_local_local_spec "/tmp/a" "/tmp/b" "normal" 3
    ⟨⟨true, true⟩, ⟨0, "", 0, 0, false, true⟩, ⟨fun _ => (0, 0)⟩⟩ (by decide) (by decide)

/-- C6 (code bug): a remote-to-remote transfer whose first attempt fails with
(src_rc, dest_rc) = (1, 0) does not append the pair and retry — the
`exit_codes.append(tuple(src_rc, dest_rc))` of k8s_utils.py line 273 calls
the tuple constructor with two arguments, which raises TypeError, so the
accumulated pair list is never built nor returned; a clean attempt still
returns 0. -/
theorem remote_to_remote_tuple_bug :
    (_remote_to_remote "a:/x" "b:/y" "normal" 3 ⟨fun _ => (1, 0)⟩).1 =
      .error "TypeError: tuple expected at most 1 argument, got 2" ∧
    (_remote_to_remote "a:/x" "b:/y" "normal" 3 ⟨fun _ => (0, 0)⟩).1 =
      .ok (.retInt 0) := by
  exact ⟨rfl, rfl⟩

/-- Counterexample for C7: a remote directory whose reported size is 3 bytes
with 4 bytes free locally — the doubled size (6) exceeds the free space, so
the claim demands an abort, but _dl compares the undoubled size (3 fits in
4) and starts the copy subprocess anyway. -/
theorem dl_no_doubling_counterexample :
    (_dl "pod:/data" "/tmp/out" "normal" ⟨0, "", 3, 4, true, true⟩).1 = .ok (.retInt 0) ∧
    (Call.kubectlCpCall "pod:/data" "/tmp/out" "normal") ∈
      (_dl "pod:/data" "/tmp/out" "normal" ⟨0, "", 3, 4, true, true⟩).2 ∧
    4 < 2 * 3 := by
  exact ⟨rfl, by decide, by decide⟩

/-- C7 (amended): whenever the remote-reported size — taken as-is, never
doubled, directory or not — exceeds the free disk space of the destination
directory, _dl aborts with the insufficient-space error before any
data-moving copy subprocess is started: its trace holds only the pod wait
and the du probe. -/
theorem dl_preflight_spec (src dest mode : String) (o : DlOracle) (rp : String × String)
    (hparse : parse_remote_path src = .ok rp)
    (hdu : o.duRc = 0)
    (hsz : o.freeBytes < o.duOutBytes) :
    _dl src dest mode o =
      (.error "Insufficient space on local host",
       [Call.waitPodReadyCall rp.1, Call.execDuCall rp.1 rp.2]) := by
  simp [_dl, hparse, hdu, hsz]

/-- Witness for C7 (amended): 3 reported bytes against 2 free bytes aborts
before the copy. -/
theorem dl_preflight_spec_witness :
    _dl "pod:/data" "/tmp/out" "normal" ⟨0, "", 3, 2, false, true⟩ =
      (.error "Insufficient space on local host",
       [Call.waitPodReadyCall "pod", Call.execDuCall "pod" "/data"]) := by
  exact dl_preflight_spec "pod:/data" "/tmp/out" "normal" ⟨0, "", 3, 2, false, true⟩
    ("pod", "/data") (by rfl) (by rfl) (by decide)

/-- Counterexample for C1: an upload in normal mode after which the remote
bytes do NOT equal the local bytes (the checksums of the two sides differ):
_up still returns 0, raises no integrity error, and its trace holds no
checksum computation at all. -/
theorem up_no_integrity_counterexample :
    (_up "f.txt" "pod:/tmp/f.txt" "normal" ⟨true, false⟩).1 = .ok (.retInt 0) ∧
    ((_up "f.txt" "pod:/tmp/f.txt" "normal" ⟨true, false⟩).2.all
      (fun c => !c.isChecksum)) = true := by
  exact ⟨rfl, rfl⟩

/-- C1 (amended): neither _up nor _dl computes or compares any checksum and
neither can raise an integrity error: every call they issue is a
non-checksum call, and their outcomes are independent of whether the two
sides' bytes actually agree (the md5sum helper of k8s_utils.py lines 22-31
is never invoked; transfer integrity rests on `kubectl cp --retries`
alone). -/
theorem transfer_no_checksum_spec (src dest mode : String) (oUp : UpOracle) (oDl : DlOracle) :
    ((_up src dest mode oUp).2.all (fun c => !c.isChecksum) = true) ∧
    ((_dl src dest mode oDl).2.all (fun c => !c.isChecksum) = true) ∧
    (_up src dest mode ⟨oUp.sourceExists, true⟩ = _up src dest mode ⟨oUp.sourceExists, false⟩) ∧
    (_dl src dest mode ⟨oDl.duRc, oDl.duErr, oDl.duOutBytes, oDl.freeBytes, oDl.isDir, true⟩ =
      _dl src dest mode ⟨oDl.duRc, oDl.duErr, oDl.duOutBytes, oDl.freeBytes, oDl.isDir, false⟩) := by
  refine ⟨?_, ?_, rfl, rfl⟩
  · by_cases h : ¬(oUp.sourceExists = true) ∧ ¬(mode = "dry-run")
    · simp only [_up]
      rw [if_pos h]
      rfl
    · simp only [_up]
      rw [if_neg h]
      rfl
  · rcases hp : parse_remote_path src with e | rp
    · simp only [_dl, hp]
      rfl
    · by_cases h1 : ¬(oDl.duRc = 0)
      · simp only [_dl, hp]
        rw [if_pos h1]
        rfl
      · by_cases h2 : oDl.freeBytes < oDl.duOutBytes
        · simp only [_dl, hp]
          rw [if_neg h1, if_pos h2]
          rfl
        · simp only [_dl, hp]
          rw [if_neg h1, if_neg h2]
          rfl

/-- Witness for C10: a concrete remote string with trailing flags after the
path; the flags end up back on the selector. -/
theorem parse_remote_path_spec_witness :
    parse_remote_path "pod abc:/tmp/f --container c" =
      .ok ("pod abc --container c", "/tmp/f") := by
  have h := ((parse_remote_path_spec "pod abc:/tmp/f --container c").2.2 (by decide)).2.2
  have h3 := h "/tmp/f".toList "--container".toList ["c".toList] (by decide)
  rw [h3]
  rfl

end Basepak
